import Mathlib

/-!
Shallow embedding of the stake-server backend (Express + Mongoose ledger /
relay service).  JavaScript strings that the code case-folds or pattern-checks
(addresses, signatures, hashes, ids) are modelled as lists of character codes
(`JStr`); free-text fields (statuses, reasons, messages) are Lean `String`s.
Each route handler becomes a function from its request, its external effects
(generated id, Telegram send result, clock, relayer responses) and the server
state to a pair of the new state and the HTTP-style response.
-/

/-- A JavaScript string, as its sequence of character codes. -/
abbrev JStr := List Nat

/-- ASCII case folding of one character code, as `String.prototype.toLowerCase`
acts on the ASCII range used by addresses, signatures and hex ids. -/
def lowerChar (c : Nat) : Nat :=
  if 65 ≤ c ∧ c ≤ 90 then c + 32 else c

/-- `s.toLowerCase()` on a `JStr`. -/
def lowerStr (s : JStr) : JStr := s.map lowerChar

/-- A string is already lowercase when case folding fixes it. -/
def IsLower (s : JStr) : Prop := lowerStr s = s

/-- One hex digit, as matched by `[a-fA-F0-9]`. -/
def isHexDigit (c : Nat) : Bool :=
  (48 ≤ c && c ≤ 57) || (97 ≤ c && c ≤ 102) || (65 ≤ c && c ≤ 70)

/-- Modelled from the spec (§4.1) for the external `ethers.isAddress`:
`0x` + 40 hex characters, case-insensitive. -/
def isAddress (s : JStr) : Bool :=
  s.length == 42 && s.take 2 == [48, 120] && (s.drop 2).all isHexDigit

/-- The regex `^0x[a-fA-F0-9]{64}$` used for transaction hashes. -/
def isTxHashStr (s : JStr) : Bool :=
  s.length == 66 && s.take 2 == [48, 120] && (s.drop 2).all isHexDigit

/-- The regex `^0x[a-fA-F0-9]{130}$` used for signatures. -/
def isSigFormat (s : JStr) : Bool :=
  s.length == 132 && s.take 2 == [48, 120] && (s.drop 2).all isHexDigit

/-- `mongoose.Types.ObjectId.isValid` on a string id: 24 hex characters. -/
def isValidObjectId (s : JStr) : Bool :=
  s.length == 24 && s.all isHexDigit

/-- JavaScript falsiness of an optional string field (`!x`: absent or `""`). -/
def falsyStr : Option JStr → Bool
  | none => true
  | some s => s.isEmpty

/-- JavaScript falsiness of an optional plain-text field. -/
def falsyTxt : Option String → Bool
  | none => true
  | some s => s == ""

/-- JavaScript falsiness of an optional numeric field (`!x`: absent or 0). -/
def falsyNum : Option Int → Bool
  | none => true
  | some n => n == 0

/-- Lifecycle status strings of the ledger schemas
(`enum: ["pending", "awaiting verification", "verified", "failed"]`). -/
def statusEnum : List String :=
  ["pending", "awaiting verification", "verified", "failed"]

/-- A stored `Transaction` document (models/Transaction). -/
structure TxRecord where
  id : JStr
  userId : JStr
  name : String
  address : JStr
  usdtAmount : Int
  nairaAmount : Int
  status : String
  createdAt : Nat
  updatedAt : Nat
  deriving DecidableEq, Repr

/-- Bank details sub-document of a withdrawal. -/
structure BankDetails where
  bankName : String
  accountNumber : String
  accountName : String
  deriving DecidableEq, Repr

/-- A stored `Withdrawal` document (models/Withdrawal.js). -/
structure WdRecord where
  id : JStr
  userId : JStr
  usdtAmount : Int
  bankDetails : BankDetails
  txHash : JStr
  status : String
  createdAt : Nat
  updatedAt : Nat
  deriving DecidableEq, Repr

/-- A stored `Suspension` document (models/Suspension.js). -/
structure SuspRecord where
  address : JStr
  reason : String
  suspendedAt : Nat
  admin : JStr
  deriving DecidableEq, Repr

/-- The three Mongo collections the server reads and writes. -/
structure ServerState where
  transactions : List TxRecord
  withdrawals : List WdRecord
  suspensions : List SuspRecord
  deriving DecidableEq, Repr

/-- The JSON response shapes the handlers produce, tagged with the
HTTP status code where the code sets one. -/
inductive Resp where
  /-- `res.status(n).json({ error })` -/
  | err (status : Nat) (error : String)
  /-- `res.status(400).json({ error, transactionId })` (duplicate pending) -/
  | errWithId (status : Nat) (error : String) (transactionId : JStr)
  /-- `res.json({ transactionId })` -/
  | okId (transactionId : JStr)
  /-- `res.json({ success: true })` -/
  | okSuccess
  /-- `res.json({ success: true, message })` -/
  | okSuccessMsg (message : String)
  /-- `res.json({ success: true, transactionId })` -/
  | okSuccessId (transactionId : JStr)
  /-- `res.json({ status })` -/
  | okStatus (status : String)
  /-- `res.json(withdrawals)` -/
  | okWdList (records : List WdRecord)
  /-- `res.json(transactions)` -/
  | okTxList (records : List TxRecord)
  /-- `res.json({ isSuspended, reason, suspendedAt })` -/
  | okSuspension (isSusp : Bool) (reason : Option String) (suspendedAt : Option Nat)
  /-- `res.json({ hash, success: true })` -/
  | relayOk (hash : JStr)
  /-- `res.status(n).json({ error, hash })` (mined but reverted) -/
  | errHash (status : Nat) (error : String) (hash : JStr)
  /-- `res.status(n).json({ error, hash, details })` (confirmation failed) -/
  | errHashDetails (status : Nat) (error : String) (hash : JStr) (details : String)
  /-- `res.status(n).json({ error, details })` (relayer rejected parameters) -/
  | errDetails (status : Nat) (error : String) (details : String)
  deriving DecidableEq, Repr

/-- `Suspension.findOne({ address: a.toLowerCase() })`. -/
def findSusp (s : ServerState) (a : JStr) : Option SuspRecord :=
  s.suspensions.find? (fun r => decide (r.address = lowerStr a))

/-- `Transaction.findById(tid)`. -/
def findTx (s : ServerState) (tid : JStr) : Option TxRecord :=
  s.transactions.find? (fun r => decide (r.id = tid))

/-- `Withdrawal.findById(tid)`. -/
def findWd (s : ServerState) (tid : JStr) : Option WdRecord :=
  s.withdrawals.find? (fun r => decide (r.id = tid))

/-- The suspension error body: `Account is suspended: ${reason}`. -/
def suspendedMsg (reason : String) : String :=
  "Account is suspended: " ++ reason

/-- In-place status update of the document `save()` writes back:
set `status` and `updatedAt` on the record with the given id. -/
def updWdStatus (l : List WdRecord) (tid : JStr) (st : String) (now : Nat) : List WdRecord :=
  l.map (fun r => if r.id = tid then { r with status := st, updatedAt := now } else r)

/-- Same write-back for the transaction collection. -/
def updTxStatus (l : List TxRecord) (tid : JStr) (st : String) (now : Nat) : List TxRecord :=
  l.map (fun r => if r.id = tid then { r with status := st, updatedAt := now } else r)

/-- Request body of `POST /api/create-withdrawal`. -/
structure CreateWdReq where
  userId : JStr
  usdtAmount : Option Int
  bankDetails : Option BankDetails
  txHash : Option JStr
  deriving DecidableEq, Repr

/-- The input guard of `POST /api/create-withdrawal`: address well-formed,
amount a number greater than zero (`!usdtAmount || isNaN || <= 0` rejects the
rest), bank details present with no empty field, txHash matching the hash
regex. -/
def validCreateWd (r : CreateWdReq) : Bool :=
  isAddress r.userId &&
  (match r.usdtAmount with | none => false | some n => decide (0 < n)) &&
  (match r.bankDetails with
    | none => false
    | some b => !(b.bankName == "") && !(b.accountNumber == "") && !(b.accountName == "")) &&
  (match r.txHash with | none => false | some h => isTxHashStr h)

/-- `POST /api/create-withdrawal`.  `newId` is the ObjectId Mongo generates,
`now` the clock, `tgOk` whether `bot.sendMessage` succeeds; a notification
throw is caught by the route's catch-all, which answers 500 after the save. -/
def createWithdrawal (r : CreateWdReq) (newId : JStr) (now : Nat) (tgOk : Bool)
    (s : ServerState) : ServerState × Resp :=
  if !validCreateWd r then (s, .err 400 "Invalid withdrawal data")
  else match findSusp s r.userId with
  | some susp => (s, .err 403 (suspendedMsg susp.reason))
  | none =>
    match s.withdrawals.find?
        (fun w => decide (w.userId = lowerStr r.userId ∧ w.status = "pending")) with
    | some w =>
        (s, .errWithId 400 "You have a pending withdrawal. Please complete or cancel it." w.id)
    | none =>
      let wd : WdRecord :=
        ⟨newId, lowerStr r.userId, r.usdtAmount.getD 0, r.bankDetails.getD ⟨"", "", ""⟩,
          r.txHash.getD [], "pending", now, now⟩
      let s1 : ServerState := { s with withdrawals := s.withdrawals ++ [wd] }
      if tgOk then (s1, .okId newId) else (s1, .err 500 "Server error")

/-- `POST /api/cancel-withdrawal`: id format gate, NotFound, pending-only
conflict, then `findByIdAndDelete` (removes the found document). -/
def cancelWithdrawal (tid : JStr) (s : ServerState) : ServerState × Resp :=
  if !isValidObjectId tid then (s, .err 400 "Invalid withdrawal ID")
  else match findWd s tid with
  | none => (s, .err 404 "Withdrawal not found")
  | some w =>
    if w.status ≠ "pending" then
      (s, .err 400 ("Withdrawal is in " ++ w.status ++ " status"))
    else
      ({ s with withdrawals := s.withdrawals.eraseP (fun r => decide (r.id = tid)) },
        .okSuccessMsg "Withdrawal cancelled successfully")

/-- `POST /api/verify-withdrawal` (after the admin middleware): id and outcome
gates, NotFound, conflict unless status is pending or awaiting verification,
then the status write followed by the awaited Telegram notification, whose
throw the catch-all turns into a 500 after the save. -/
def verifyWithdrawal (tid : JStr) (outcome : String) (now : Nat) (tgOk : Bool)
    (s : ServerState) : ServerState × Resp :=
  if !isValidObjectId tid then (s, .err 400 "Invalid withdrawal ID")
  else if !(["verified", "failed"].contains outcome) then (s, .err 400 "Invalid status")
  else match findWd s tid with
  | none => (s, .err 404 "Withdrawal not found")
  | some w =>
    if w.status ≠ "pending" ∧ w.status ≠ "awaiting verification" then
      (s, .err 400 ("Withdrawal is in " ++ w.status ++ " status"))
    else
      let s1 : ServerState :=
        { s with withdrawals := updWdStatus s.withdrawals tid outcome now }
      if tgOk then (s1, .okSuccess) else (s1, .err 500 "Server error")

/-- `POST /api/check-withdrawal-status`. -/
def checkWithdrawalStatus (tid : JStr) (s : ServerState) : ServerState × Resp :=
  if !isValidObjectId tid then (s, .err 400 "Invalid withdrawal ID")
  else match findWd s tid with
  | none => (s, .err 404 "Withdrawal not found")
  | some w => (s, .okStatus w.status)

/-- Request body of `POST /api/create-transaction`. -/
structure CreateTxReq where
  userId : JStr
  name : Option String
  address : JStr
  usdtAmount : Option Int
  nairaAmount : Option Int
  deriving DecidableEq, Repr

/-- The input guard of `POST /api/create-transaction`: both addresses
well-formed, name truthy, both amounts numbers greater than zero. -/
def validCreateTx (r : CreateTxReq) : Bool :=
  isAddress r.userId &&
  !(falsyTxt r.name) &&
  isAddress r.address &&
  (match r.usdtAmount with | none => false | some n => decide (0 < n)) &&
  (match r.nairaAmount with | none => false | some n => decide (0 < n))

/-- `POST /api/create-transaction`. -/
def createTransaction (r : CreateTxReq) (newId : JStr) (now : Nat)
    (s : ServerState) : ServerState × Resp :=
  if !validCreateTx r then (s, .err 400 "Invalid transaction data")
  else match findSusp s r.userId with
  | some susp => (s, .err 403 (suspendedMsg susp.reason))
  | none =>
    match s.transactions.find?
        (fun t => decide (t.userId = lowerStr r.userId ∧ t.status = "pending")) with
    | some t =>
        (s, .errWithId 400
          "You have a pending transaction. Please complete or cancel it before creating a new one."
          t.id)
    | none =>
      let tx : TxRecord :=
        ⟨newId, lowerStr r.userId, r.name.getD "", lowerStr r.address,
          r.usdtAmount.getD 0, r.nairaAmount.getD 0, "pending", now, now⟩
      ({ s with transactions := s.transactions ++ [tx] }, .okId newId)

/-- `POST /api/cancel-transaction`. -/
def cancelTransaction (tid : JStr) (s : ServerState) : ServerState × Resp :=
  if !isValidObjectId tid then (s, .err 400 "Invalid transaction ID")
  else match findTx s tid with
  | none => (s, .err 404 "Transaction not found")
  | some t =>
    if t.status ≠ "pending" then
      (s, .err 400 ("Transaction is in " ++ t.status ++ " status"))
    else
      ({ s with transactions := s.transactions.eraseP (fun r => decide (r.id = tid)) },
        .okSuccessMsg "Transaction cancelled successfully")

/-- `POST /api/mark-paid`. -/
def markPaid (tid : JStr) (now : Nat) (s : ServerState) : ServerState × Resp :=
  if !isValidObjectId tid then (s, .err 400 "Invalid transaction ID")
  else match findTx s tid with
  | none => (s, .err 404 "Transaction not found")
  | some t =>
    if t.status ≠ "pending" then
      (s, .err 400 ("Transaction is in " ++ t.status ++ " status"))
    else
      ({ s with transactions := updTxStatus s.transactions tid "awaiting verification" now },
        .okSuccessId tid)

/-- `POST /api/verify-transaction` (after the admin middleware): conflict
unless the status is exactly awaiting verification. -/
def verifyTransaction (tid : JStr) (outcome : String) (now : Nat)
    (s : ServerState) : ServerState × Resp :=
  if !isValidObjectId tid then (s, .err 400 "Invalid transaction ID")
  else if !(["verified", "failed"].contains outcome) then (s, .err 400 "Invalid status")
  else match findTx s tid with
  | none => (s, .err 404 "Transaction not found")
  | some t =>
    if t.status ≠ "awaiting verification" then
      (s, .err 400 ("Transaction is in " ++ t.status ++ " status"))
    else
      ({ s with transactions := updTxStatus s.transactions tid outcome now },
        .okSuccess)

/-- `POST /api/check-status`. -/
def checkStatus (tid : JStr) (s : ServerState) : ServerState × Resp :=
  if !isValidObjectId tid then (s, .err 400 "Invalid transaction ID")
  else match findTx s tid with
  | none => (s, .err 404 "Transaction not found")
  | some t => (s, .okStatus t.status)

/-- Render a `JStr` back to text for interpolated messages. -/
def jstrToString (s : JStr) : String :=
  String.mk (s.map (fun c => Char.ofNat c))

/-- Process configuration read from the environment at startup. -/
structure Env where
  adminAddress : JStr
  withdrawalContract : JStr
  deriving Repr

/-- Outcome of the external `ethers.verifyMessage("Admin access", signature)`:
either the recovered signer, or a throw (malformed or invalid signature). -/
inductive RecoverRes where
  | ok (signer : JStr)
  | thrown
  deriving DecidableEq, Repr

/-- Insertion into a list kept descending by `createdAt` (`sort({createdAt: -1})`). -/
def insertByCreatedDesc (key : α → Nat) (x : α) : List α → List α
  | [] => [x]
  | y :: ys => if key y ≤ key x then x :: y :: ys else y :: insertByCreatedDesc key x ys

/-- `find().sort({ createdAt: -1 })`. -/
def sortByCreatedDesc (key : α → Nat) : List α → List α
  | [] => []
  | x :: xs => insertByCreatedDesc key x (sortByCreatedDesc key xs)

/-- `GET /api/withdrawals`: the admin-override branch runs
`ethers.verifyMessage` with no prior signature-format gate, so a throw there
lands in the route's catch-all (500); otherwise the user-scoped branch
validates the address, applies the suspension gate and filters by user. -/
def listWithdrawals (userAddress adminAddress signature : Option JStr)
    (rec : RecoverRes) (env : Env) (s : ServerState) : ServerState × Resp :=
  let userPath : ServerState × Resp :=
    match userAddress with
    | none => (s, .err 400 "Missing user address")
    | some ua =>
      if !isAddress ua then (s, .err 400 "Invalid user address")
      else match findSusp s ua with
      | some susp => (s, .err 403 (suspendedMsg susp.reason))
      | none =>
        (s, .okWdList (sortByCreatedDesc (fun w => w.createdAt)
          (s.withdrawals.filter (fun w => decide (w.userId = lowerStr ua)))))
  if !(falsyStr adminAddress) && !(falsyStr signature) then
    match rec with
    | .thrown => (s, .err 500 "Server error")
    | .ok signer =>
      let admin := adminAddress.getD []
      if lowerStr signer = lowerStr admin ∧ lowerStr admin = lowerStr env.adminAddress then
        (s, .okWdList (sortByCreatedDesc (fun w => w.createdAt) s.withdrawals))
      else userPath
  else userPath

/-- `GET /api/transactions`, same shape as `GET /api/withdrawals`. -/
def listTransactions (userAddress adminAddress signature : Option JStr)
    (rec : RecoverRes) (env : Env) (s : ServerState) : ServerState × Resp :=
  let userPath : ServerState × Resp :=
    match userAddress with
    | none => (s, .err 400 "Missing user address")
    | some ua =>
      if !isAddress ua then (s, .err 400 "Invalid user address")
      else match findSusp s ua with
      | some susp => (s, .err 403 (suspendedMsg susp.reason))
      | none =>
        (s, .okTxList (sortByCreatedDesc (fun t => t.createdAt)
          (s.transactions.filter (fun t => decide (t.userId = lowerStr ua)))))
  if !(falsyStr adminAddress) && !(falsyStr signature) then
    match rec with
    | .thrown => (s, .err 500 "Server error")
    | .ok signer =>
      let admin := adminAddress.getD []
      if lowerStr signer = lowerStr admin ∧ lowerStr admin = lowerStr env.adminAddress then
        (s, .okTxList (sortByCreatedDesc (fun t => t.createdAt) s.transactions))
      else userPath
  else userPath

/-- `GET /api/check-suspension/:address`. -/
def checkSuspension (address : JStr) (s : ServerState) : ServerState × Resp :=
  if !isAddress address then (s, .err 400 "Invalid Ethereum address")
  else match findSusp s address with
  | some r => (s, .okSuspension true (some r.reason) (some r.suspendedAt))
  | none => (s, .okSuspension false none none)

/-- `reason || "No reason provided"` (the schema default on a falsy reason). -/
def jsOrReason : Option String → String
  | none => "No reason provided"
  | some r => if r = "" then "No reason provided" else r

/-- `POST /api/suspend` (after the admin middleware).  The unique index on
`address` makes a duplicate `save()` throw error 11000, answered as 400. -/
def suspend (address : JStr) (reason : Option String) (adminAddr : JStr) (now : Nat)
    (s : ServerState) : ServerState × Resp :=
  if !isAddress address then (s, .err 400 "Invalid Ethereum address")
  else if s.suspensions.any (fun r => decide (r.address = lowerStr address)) then
    (s, .err 400 "Account already suspended")
  else
    ({ s with suspensions :=
        s.suspensions ++ [⟨lowerStr address, jsOrReason reason, now, adminAddr⟩] },
      .okSuccessMsg ("Account " ++ jstrToString address ++ " suspended"))

/-- `POST /api/unsuspend` (after the admin middleware). -/
def unsuspend (address : JStr) (s : ServerState) : ServerState × Resp :=
  if !isAddress address then (s, .err 400 "Invalid Ethereum address")
  else match findSusp s address with
  | none => (s, .err 404 "Account not suspended")
  | some _ =>
    ({ s with suspensions :=
        s.suspensions.eraseP (fun r => decide (r.address = lowerStr address)) },
      .okSuccessMsg ("Account " ++ jstrToString address ++ " unsuspended"))

/-- Request body of `POST /relay` and `POST /relay-withdrawal`. -/
structure RelayReq where
  contractAddress : Option JStr
  functionName : Option String
  args : Option (List JStr)
  userAddress : Option JStr
  signature : Option JStr
  chainId : Option Int
  speed : Option String
  deriving DecidableEq, Repr

/-- Outcome of ABI encoding plus `relaySigner.sendTransaction`: the relayer
hash, or a throw (encoding failure or submission failure) with its message. -/
inductive SubmitRes where
  | ok (hash : JStr)
  | thrown (msg : String)
  deriving DecidableEq, Repr

/-- Outcome of `provider.waitForTransaction(hash, 1, 120000)`: a receipt with
its on-chain status, or a throw (wait error or the 120 s timeout). -/
inductive ConfirmRes where
  | receipt (status : Nat)
  | thrown (msg : String)
  deriving DecidableEq, Repr

/-- The external relayer and chain, seen from one request. -/
structure RelayExt where
  submit : SubmitRes
  confirm : ConfirmRes
  deriving DecidableEq, Repr

/-- `error.message.includes(pat)`. -/
def containsSub (s pat : String) : Bool := (s.splitOn pat).length > 1

/-- The `/relay` catch-all classification of a submission-time throw. -/
def classifyRelayErr (m : String) : Resp :=
  if containsSub m "authentication" || containsSub m "API key and secret are required" then
    .err 401 "Authentication failed: Invalid or missing API credentials"
  else if containsSub m "Insufficient funds" then
    .err 403 "Relayer has insufficient funds. Please fund the relayer."
  else if containsSub m "status code 400" then
    .errDetails 400 "Invalid transaction parameters" m
  else .err 500 ("Relay error: " ++ m)

/-- The `/relay-withdrawal` catch-all classification of a submission-time throw. -/
def classifyWdRelayErr (m : String) : Resp :=
  if containsSub m "authentication" || containsSub m "API key and secret are required" then
    .err 401 "Authentication failed: Invalid or missing API credentials"
  else if containsSub m "Insufficient funds" then
    .err 403 "Relayer has insufficient funds. Please fund the relayer."
  else if containsSub m "status code 400" then
    .errDetails 400 "Invalid withdrawal transaction parameters" m
  else .err 500 ("Withdrawal relay error: " ++ m)

/-- The `/relay` confirmation phase once a hash is in hand: receipt with
status 1 → success; receipt with any other status → on-chain failure with the
hash; wait throw or timeout → confirmation failure with the hash. -/
def relayConfirmPhase (hash : JStr) (c : ConfirmRes) : Resp :=
  match c with
  | .receipt st =>
      if st ≠ 1 then .errHash 500 "Transaction failed on-chain" hash
      else .relayOk hash
  | .thrown m => .errHashDetails 500 "Failed to confirm transaction" hash m

/-- The `/relay-withdrawal` confirmation phase. -/
def relayWdConfirmPhase (hash : JStr) (c : ConfirmRes) : Resp :=
  match c with
  | .receipt st =>
      if st ≠ 1 then .errHash 500 "Withdrawal transaction failed on-chain" hash
      else .relayOk hash
  | .thrown m => .errHashDetails 500 "Failed to confirm withdrawal transaction" hash m

/-- The missing-fields guard shared by both relay routes
(`!chainId || !contractAddress || !functionName || !args || !userAddress || !signature`;
an empty args array is truthy in JavaScript, so only an absent `args` fails). -/
def relayMissing (r : RelayReq) : Bool :=
  falsyNum r.chainId || falsyStr r.contractAddress || falsyTxt r.functionName ||
    r.args.isNone || falsyStr r.userAddress || falsyStr r.signature

/-- `POST /relay`: missing-fields, suspension, chainId, address formats,
signature format, then submission and confirmation. -/
def relay (r : RelayReq) (ext : RelayExt) (s : ServerState) : ServerState × Resp :=
  if relayMissing r then
    (s, .err 400
      "Missing required fields: contractAddress, functionName, args, userAddress, signature, chainId")
  else match findSusp s (r.userAddress.getD []) with
  | some susp => (s, .err 403 (suspendedMsg susp.reason))
  | none =>
    if r.chainId.getD 0 ≠ 56 then (s, .err 400 "Invalid chainId, expected 56 (BSC)")
    else if !(isAddress (r.contractAddress.getD []) && isAddress (r.userAddress.getD [])) then
      (s, .err 400 "Invalid contractAddress or userAddress")
    else if !isSigFormat (r.signature.getD []) then
      (s, .err 400 "Invalid signature format")
    else match ext.submit with
    | .thrown m => (s, classifyRelayErr m)
    | .ok hash => (s, relayConfirmPhase hash ext.confirm)

/-- `POST /relay-withdrawal`: missing-fields, then the contract allowlist
(`contractAddress` must equal the configured withdrawal contract,
case-insensitively) and the function allowlist (`executeMetaWithdrawal`),
then suspension, chainId, address formats, signature format, then submission
and confirmation. -/
def relayWithdrawal (r : RelayReq) (env : Env) (ext : RelayExt)
    (s : ServerState) : ServerState × Resp :=
  if relayMissing r then
    (s, .err 400
      "Missing required fields: contractAddress, functionName, args, userAddress, signature, chainId")
  else if lowerStr (r.contractAddress.getD []) ≠ lowerStr env.withdrawalContract then
    (s, .err 400 "Invalid contract address for withdrawal")
  else if r.functionName.getD "" ≠ "executeMetaWithdrawal" then
    (s, .err 400 "Invalid function name, expected executeMetaWithdrawal")
  else match findSusp s (r.userAddress.getD []) with
  | some susp => (s, .err 403 (suspendedMsg susp.reason))
  | none =>
    if r.chainId.getD 0 ≠ 56 then (s, .err 400 "Invalid chainId, expected 56 (BSC)")
    else if !(isAddress (r.contractAddress.getD []) && isAddress (r.userAddress.getD [])) then
      (s, .err 400 "Invalid contractAddress or userAddress")
    else if !isSigFormat (r.signature.getD []) then
      (s, .err 400 "Invalid signature format")
    else match ext.submit with
    | .thrown m => (s, classifyWdRelayErr m)
    | .ok hash => (s, relayWdConfirmPhase hash ext.confirm)

/-- The blockchain transaction hash a response carries, when any. -/
def respHash : Resp → Option JStr
  | .relayOk h => some h
  | .errHash _ _ h => some h
  | .errHashDetails _ _ h _ => some h
  | _ => none

/-- The §3 invariant for the transaction collection: at most one pending
record per user. -/
def AtMostOnePendingTx (l : List TxRecord) : Prop :=
  ∀ x ∈ l, ∀ y ∈ l,
    x.status = "pending" → y.status = "pending" → x.userId = y.userId → x = y

/-- The §3 invariant for the withdrawal collection. -/
def AtMostOnePendingWd (l : List WdRecord) : Prop :=
  ∀ x ∈ l, ∀ y ∈ l,
    x.status = "pending" → y.status = "pending" → x.userId = y.userId → x = y

/-- `0x` followed by forty `a` characters: a lowercase well-formed address. -/
def cAddrA : JStr := [48, 120] ++ List.replicate 40 97

/-- The same address written with uppercase `A` hex digits. -/
def cAddrAU : JStr := [48, 120] ++ List.replicate 40 65

/-- A second well-formed address (forty `b` characters). -/
def cAddrB : JStr := [48, 120] ++ List.replicate 40 98

/-- A well-formed ObjectId (twenty-four `a` characters). -/
def cOid1 : JStr := List.replicate 24 97

/-- A second well-formed ObjectId. -/
def cOid2 : JStr := List.replicate 24 98

/-- A well-formed transaction hash. -/
def cHash : JStr := [48, 120] ++ List.replicate 64 99

/-- A well-formed 130-hex-digit signature. -/
def cSig : JStr := [48, 120] ++ List.replicate 130 99

/-- The string `0xzz`: not a well-formed signature. -/
def cBadSig : JStr := [48, 120, 122, 122]

/-- A configuration whose admin and withdrawal contract are `cAddrB`. -/
def cEnv : Env := ⟨cAddrB, cAddrB⟩

/-- A suspension of `cAddrA` recorded with reason `fraud`. -/
def cSuspRec : SuspRecord := ⟨cAddrA, "fraud", 1, cAddrB⟩

/-- A pending transaction owned by `cAddrA`. -/
def cTxPending : TxRecord := ⟨cOid1, cAddrA, "Ada", cAddrB, 100, 5000, "pending", 1, 1⟩

/-- A pending withdrawal owned by `cAddrA`. -/
def cWdPending : WdRecord := ⟨cOid1, cAddrA, 100, ⟨"GTB", "123", "Ada"⟩, cHash, "pending", 1, 1⟩

/-- The empty store. -/
def cStEmpty : ServerState := ⟨[], [], []⟩

/-- A store where `cAddrA` is suspended yet owns a pending transaction and a
pending withdrawal. -/
def cStSusp : ServerState := ⟨[cTxPending], [cWdPending], [cSuspRec]⟩

/-- A store with only the pending withdrawal. -/
def cStWd : ServerState := ⟨[], [cWdPending], []⟩

/-- A store with the pending transaction and withdrawal and no suspension. -/
def cStPend : ServerState := ⟨[cTxPending], [cWdPending], []⟩

/-- The pending transaction after mark-paid. -/
def cTxAwait : TxRecord :=
  ⟨cOid1, cAddrA, "Ada", cAddrB, 100, 5000, "awaiting verification", 1, 2⟩

/-- A store whose transaction awaits verification, with the withdrawal
still pending. -/
def cStVerify : ServerState := ⟨[cTxAwait], [cWdPending], []⟩

/-- A well-formed create-transaction request from `cAddrA`. -/
def cTxReq : CreateTxReq := ⟨cAddrA, some "Ada", cAddrB, some 100, some 5000⟩

/-- A well-formed create-withdrawal request from `cAddrA`. -/
def cWdReq : CreateWdReq := ⟨cAddrA, some 100, some ⟨"GTB", "123", "Ada"⟩, some cHash⟩

/-- A well-formed withdrawal-relay request from `cAddrA` against `cAddrB`. -/
def cRelayReq : RelayReq :=
  ⟨some cAddrB, some "executeMetaWithdrawal", some [], some cAddrA, some cSig, some 56, none⟩

/-- A relay request with every field absent. -/
def cEmptyRelayReq : RelayReq := ⟨none, none, none, none, none, none, none⟩

/-- Case folding is idempotent: a folded character is fixed by folding. -/
theorem lowerChar_idem (c : Nat) : lowerChar (lowerChar c) = lowerChar c := by
  unfold lowerChar
  by_cases h : 65 ≤ c ∧ c ≤ 90
  · have h2 : ¬(65 ≤ c + 32 ∧ c + 32 ≤ 90) := by omega
    simp [h, h2]
    omega
  · simp [h]

/-- Case folding of strings is idempotent. -/
theorem lowerStr_idem (s : JStr) : lowerStr (lowerStr s) = lowerStr s := by
  unfold lowerStr
  rw [List.map_map]
  exact List.map_congr_left (fun c _ => lowerChar_idem c)

/-- Every folded string is lowercase. -/
theorem isLower_lowerStr (s : JStr) : IsLower (lowerStr s) := lowerStr_idem s

/-- `find?` returns the unique member satisfying the predicate. -/
theorem findUniqueEqSome {α} (p : α → Bool) (l : List α) (w : α)
    (hm : w ∈ l) (hp : p w = true) (hu : ∀ x ∈ l, p x = true → x = w) :
    l.find? p = some w := by
  induction l with
  | nil => cases hm
  | cons a l ih =>
    by_cases ha : p a = true
    · have : a = w := hu a (List.mem_cons_self a l) ha
      subst this
      simp [List.find?, ha]
    · have haw : a ≠ w := fun h => ha (h ▸ hp)
      have hm2 : w ∈ l := by
        rcases List.mem_cons.mp hm with h | h
        · exact absurd h.symm haw
        · exact h
      have := ih hm2 (fun x hx hpx => hu x (List.mem_cons_of_mem a hx) hpx)
      simp [List.find?, ha, this]

/-- Erasing the only satisfier leaves a list with no satisfier. -/
theorem findErasePNone {α} (p : α → Bool) (l : List α)
    (h : l.countP p ≤ 1) : (l.eraseP p).find? p = none := by
  induction l with
  | nil => simp
  | cons a l ih =>
    by_cases ha : p a = true
    · rw [List.eraseP_cons_of_pos ha]
      simp only [ha, List.countP_cons_of_pos] at h
      have h0 : l.countP p = 0 := by omega
      rw [List.find?_eq_none]
      intro x hx
      have := List.countP_eq_zero.mp h0 x hx
      simp [this]
    · rw [List.eraseP_cons_of_neg ha]
      rw [List.countP_cons_of_neg p _ ha] at h
      have := ih h
      rw [List.find?_cons_of_neg _ ha]
      exact this

/-- `findById` after the status write-back sees the written transaction. -/
theorem find_updTxStatus (l : List TxRecord) (tid : JStr) (st : String) (now : Nat) :
    (updTxStatus l tid st now).find? (fun r => decide (r.id = tid)) =
      (l.find? (fun r => decide (r.id = tid))).map
        (fun r => { r with status := st, updatedAt := now }) := by
  induction l with
  | nil => rfl
  | cons a l ih =>
    unfold updTxStatus at *
    by_cases ha : a.id = tid
    · simp [List.find?, ha]
    · simp [List.find?, ha, ih]

/-- `findById` after the status write-back sees the written withdrawal. -/
theorem find_updWdStatus (l : List WdRecord) (tid : JStr) (st : String) (now : Nat) :
    (updWdStatus l tid st now).find? (fun r => decide (r.id = tid)) =
      (l.find? (fun r => decide (r.id = tid))).map
        (fun r => { r with status := st, updatedAt := now }) := by
  induction l with
  | nil => rfl
  | cons a l ih =>
    unfold updWdStatus at *
    by_cases ha : a.id = tid
    · simp [List.find?, ha]
    · simp [List.find?, ha, ih]

/-- `find?` over an appended singleton when the prefix has no satisfier. -/
theorem findAppendSingleton {α} (p : α → Bool) (l : List α) (x : α)
    (hl : ∀ y ∈ l, p y = false) (hx : p x = true) :
    (l ++ [x]).find? p = some x := by
  induction l with
  | nil => simp [List.find?, hx]
  | cons a l ih =>
    have ha := hl a (List.mem_cons_self a l)
    simp only [List.cons_append, List.find?, ha]
    exact ih (fun y hy => hl y (List.mem_cons_of_mem a hy))

/-- C10: the relay operations never write: for every request, environment,
external relayer behaviour and store, `/relay` and `/relay-withdrawal` leave
the transaction, withdrawal and suspension collections unchanged, so no relay
outcome is ever reflected in a ledger record. -/
theorem relay_state_frame (r : RelayReq) (env : Env) (ext : RelayExt) (s : ServerState) :
    (relay r ext s).1 = s ∧ (relayWithdrawal r env ext s).1 = s := by
  refine ⟨?_, ?_⟩
  · unfold relay
    repeat' split
    all_goals rfl
  · unfold relayWithdrawal
    repeat' split
    all_goals rfl

/-- C6: once the relayer returns a hash and validation has passed, the
response is exactly one of three outcomes, each carrying that hash: receipt
status 1 gives `{hash, success:true}`; any other receipt status gives the
on-chain-failure error with the hash; a confirmation throw or timeout gives
the confirmation-failure error with the hash; the three are pairwise
distinct and the on-chain failure differs from every submission-failure
response.  Holds for `/relay` and `/relay-withdrawal` alike. -/
theorem relay_confirm_outcomes (r : RelayReq) (env : Env) (s : ServerState)
    (hash : JStr) (c : ConfirmRes)
    (hmiss : relayMissing r = false)
    (hcontract : lowerStr (r.contractAddress.getD []) = lowerStr env.withdrawalContract)
    (hfn : r.functionName.getD "" = "executeMetaWithdrawal")
    (hsusp : findSusp s (r.userAddress.getD []) = none)
    (hchain : r.chainId.getD 0 = 56)
    (haddr : (isAddress (r.contractAddress.getD []) && isAddress (r.userAddress.getD [])) = true)
    (hsig : isSigFormat (r.signature.getD []) = true) :
    ((relay r ⟨.ok hash, c⟩ s).2 = .relayOk hash ∨
      (relay r ⟨.ok hash, c⟩ s).2 = .errHash 500 "Transaction failed on-chain" hash ∨
      ∃ m, (relay r ⟨.ok hash, c⟩ s).2 = .errHashDetails 500 "Failed to confirm transaction" hash m) ∧
    (c = .receipt 1 → (relay r ⟨.ok hash, c⟩ s).2 = .relayOk hash ∧
      (relayWithdrawal r env ⟨.ok hash, c⟩ s).2 = .relayOk hash) ∧
    (∀ st : Nat, c = .receipt st → st ≠ 1 →
      (relay r ⟨.ok hash, c⟩ s).2 = .errHash 500 "Transaction failed on-chain" hash ∧
      (relayWithdrawal r env ⟨.ok hash, c⟩ s).2 =
        .errHash 500 "Withdrawal transaction failed on-chain" hash) ∧
    (∀ m : String, c = .thrown m →
      (relay r ⟨.ok hash, c⟩ s).2 = .errHashDetails 500 "Failed to confirm transaction" hash m ∧
      (relayWithdrawal r env ⟨.ok hash, c⟩ s).2 =
        .errHashDetails 500 "Failed to confirm withdrawal transaction" hash m) ∧
    (respHash (relay r ⟨.ok hash, c⟩ s).2 = some hash ∧
      respHash (relayWithdrawal r env ⟨.ok hash, c⟩ s).2 = some hash) ∧
    (∀ d : String,
      Resp.relayOk hash ≠ .errHash 500 "Transaction failed on-chain" hash ∧
      Resp.relayOk hash ≠ .errHashDetails 500 "Failed to confirm transaction" hash d ∧
      Resp.errHash 500 "Transaction failed on-chain" hash ≠
        .errHashDetails 500 "Failed to confirm transaction" hash d) ∧
    (∀ m : String,
      Resp.errHash 500 "Transaction failed on-chain" hash ≠ classifyRelayErr m ∧
      Resp.errHash 500 "Withdrawal transaction failed on-chain" hash ≠ classifyWdRelayErr m) := by
  have key1 : (relay r ⟨.ok hash, c⟩ s).2 = relayConfirmPhase hash c := by
    unfold relay
    simp [hmiss, hsusp, hchain, haddr, hsig]
  have key2 : (relayWithdrawal r env ⟨.ok hash, c⟩ s).2 = relayWdConfirmPhase hash c := by
    unfold relayWithdrawal
    simp [hmiss, hcontract, hfn, hsusp, hchain, haddr, hsig]
  rw [key1, key2]
  refine ⟨?_, ?_, ?_, ?_, ⟨?_, ?_⟩, ?_, ?_⟩
  · cases c with
    | receipt st =>
      by_cases h1 : st = 1
      · subst h1
        left
        simp [relayConfirmPhase]
      · right; left
        simp [relayConfirmPhase, h1]
    | thrown m =>
      right; right
      exact ⟨m, by simp [relayConfirmPhase]⟩
  · rintro rfl
    simp [relayConfirmPhase, relayWdConfirmPhase]
  · rintro st rfl hst
    simp [relayConfirmPhase, relayWdConfirmPhase, hst]
  · rintro m rfl
    simp [relayConfirmPhase, relayWdConfirmPhase]
  · cases c with
    | receipt st =>
      by_cases h1 : st = 1
      · subst h1; simp [relayConfirmPhase, respHash]
      · simp [relayConfirmPhase, respHash, h1]
    | thrown m => simp [relayConfirmPhase, respHash]
  · cases c with
    | receipt st =>
      by_cases h1 : st = 1
      · subst h1; simp [relayWdConfirmPhase, respHash]
      · simp [relayWdConfirmPhase, respHash, h1]
    | thrown m => simp [relayWdConfirmPhase, respHash]
  · intro d
    refine ⟨by simp, by simp, by simp⟩
  · intro m
    constructor
    · unfold classifyRelayErr
      split_ifs <;> simp
    · unfold classifyWdRelayErr
      split_ifs <;> simp

set_option maxRecDepth 4000 in
/-- C6 witness: the success outcome at the concrete withdrawal-relay request
after a submission returning `cHash`. -/
theorem relay_confirm_outcomes_witness :
    (relay cRelayReq ⟨.ok cHash, .receipt 1⟩ cStEmpty).2 = .relayOk cHash ∧
    (relayWithdrawal cRelayReq cEnv ⟨.ok cHash, .receipt 1⟩ cStEmpty).2 = .relayOk cHash :=
  (relay_confirm_outcomes cRelayReq cEnv cStEmpty cHash (.receipt 1)
    (by decide) (by decide) (by decide) (by decide) (by decide) (by decide)
    (by decide)).2.1 rfl

/-- C5: the withdrawal-relay validation runs in the specified order, each step
its own rejection — missing fields, then the contract allowlist
(case-insensitive) and the function allowlist, then suspension with the
stored reason, then chainId 56, then address formats, then signature format —
and in every rejected case the outcome is the same for every external relayer
behaviour, so no submission happens; only when all checks pass does the
response follow the relayer's submission result. -/
theorem relayWithdrawal_validation (r : RelayReq) (env : Env) (s : ServerState)
    (susp : SuspRecord) :
    (relayMissing r = true → ∀ ext : RelayExt, relayWithdrawal r env ext s =
      (s, .err 400
        "Missing required fields: contractAddress, functionName, args, userAddress, signature, chainId")) ∧
    (relayMissing r = false →
      lowerStr (r.contractAddress.getD []) ≠ lowerStr env.withdrawalContract →
      ∀ ext : RelayExt, relayWithdrawal r env ext s =
        (s, .err 400 "Invalid contract address for withdrawal")) ∧
    (relayMissing r = false →
      lowerStr (r.contractAddress.getD []) = lowerStr env.withdrawalContract →
      r.functionName.getD "" ≠ "executeMetaWithdrawal" →
      ∀ ext : RelayExt, relayWithdrawal r env ext s =
        (s, .err 400 "Invalid function name, expected executeMetaWithdrawal")) ∧
    (relayMissing r = false →
      lowerStr (r.contractAddress.getD []) = lowerStr env.withdrawalContract →
      r.functionName.getD "" = "executeMetaWithdrawal" →
      findSusp s (r.userAddress.getD []) = some susp →
      ∀ ext : RelayExt, relayWithdrawal r env ext s =
        (s, .err 403 (suspendedMsg susp.reason))) ∧
    (relayMissing r = false →
      lowerStr (r.contractAddress.getD []) = lowerStr env.withdrawalContract →
      r.functionName.getD "" = "executeMetaWithdrawal" →
      findSusp s (r.userAddress.getD []) = none →
      r.chainId.getD 0 ≠ 56 →
      ∀ ext : RelayExt, relayWithdrawal r env ext s =
        (s, .err 400 "Invalid chainId, expected 56 (BSC)")) ∧
    (relayMissing r = false →
      lowerStr (r.contractAddress.getD []) = lowerStr env.withdrawalContract →
      r.functionName.getD "" = "executeMetaWithdrawal" →
      findSusp s (r.userAddress.getD []) = none →
      r.chainId.getD 0 = 56 →
      (isAddress (r.contractAddress.getD []) && isAddress (r.userAddress.getD [])) = false →
      ∀ ext : RelayExt, relayWithdrawal r env ext s =
        (s, .err 400 "Invalid contractAddress or userAddress")) ∧
    (relayMissing r = false →
      lowerStr (r.contractAddress.getD []) = lowerStr env.withdrawalContract →
      r.functionName.getD "" = "executeMetaWithdrawal" →
      findSusp s (r.userAddress.getD []) = none →
      r.chainId.getD 0 = 56 →
      (isAddress (r.contractAddress.getD []) && isAddress (r.userAddress.getD [])) = true →
      isSigFormat (r.signature.getD []) = false →
      ∀ ext : RelayExt, relayWithdrawal r env ext s =
        (s, .err 400 "Invalid signature format")) ∧
    (relayMissing r = false →
      lowerStr (r.contractAddress.getD []) = lowerStr env.withdrawalContract →
      r.functionName.getD "" = "executeMetaWithdrawal" →
      findSusp s (r.userAddress.getD []) = none →
      r.chainId.getD 0 = 56 →
      (isAddress (r.contractAddress.getD []) && isAddress (r.userAddress.getD [])) = true →
      isSigFormat (r.signature.getD []) = true →
      (∀ h c, relayWithdrawal r env ⟨.ok h, c⟩ s = (s, relayWdConfirmPhase h c)) ∧
      (∀ m c, relayWithdrawal r env ⟨.thrown m, c⟩ s = (s, classifyWdRelayErr m))) := by
  refine ⟨?_, ?_, ?_, ?_, ?_, ?_, ?_, ?_⟩
  · intro hmiss ext
    unfold relayWithdrawal
    simp [hmiss]
  · intro hmiss hcon ext
    unfold relayWithdrawal
    simp [hmiss, hcon]
  · intro hmiss hcon hfn ext
    unfold relayWithdrawal
    simp [hmiss, hcon, hfn]
  · intro hmiss hcon hfn hsusp ext
    unfold relayWithdrawal
    simp [hmiss, hcon, hfn, hsusp]
  · intro hmiss hcon hfn hsusp hchain ext
    unfold relayWithdrawal
    simp [hmiss, hcon, hfn, hsusp, hchain]
  · intro hmiss hcon hfn hsusp hchain haddr ext
    unfold relayWithdrawal
    simp [hmiss, hcon, hfn, hsusp, hchain, haddr]
  · intro hmiss hcon hfn hsusp hchain haddr hsig ext
    unfold relayWithdrawal
    simp [hmiss, hcon, hfn, hsusp, hchain, haddr, hsig]
  · intro hmiss hcon hfn hsusp hchain haddr hsig
    constructor
    · intro h c
      unfold relayWithdrawal
      simp [hmiss, hcon, hfn, hsusp, hchain, haddr, hsig]
    · intro m c
      unfold relayWithdrawal
      simp [hmiss, hcon, hfn, hsusp, hchain, haddr, hsig]

set_option maxRecDepth 4000 in
/-- C5 witness: a fully absent request is rejected as missing fields, for any
relayer behaviour, at the concrete store. -/
theorem relayWithdrawal_validation_witness :
    relayWithdrawal cEmptyRelayReq cEnv ⟨.ok cHash, .receipt 1⟩ cStEmpty =
      (cStEmpty, .err 400
        "Missing required fields: contractAddress, functionName, args, userAddress, signature, chainId") :=
  (relayWithdrawal_validation cEmptyRelayReq cEnv cStEmpty cSuspRec).1
    (by decide) ⟨.ok cHash, .receipt 1⟩

set_option maxRecDepth 8000 in
/-- C4: the notification send is awaited inside the route's try block, so at a
valid create-withdrawal whose ledger write succeeds but whose Telegram send
throws, the code answers the 500 server error — not the success result — even
though the withdrawal was persisted; likewise verify-withdrawal persists the
status write yet answers 500 when its notification throws. -/
theorem telegram_failure_fails_request :
    (createWithdrawal cWdReq cOid1 5 false cStEmpty).2 = .err 500 "Server error" ∧
    (createWithdrawal cWdReq cOid1 5 false cStEmpty).2 ≠ .okId cOid1 ∧
    findWd (createWithdrawal cWdReq cOid1 5 false cStEmpty).1 cOid1 =
      some ⟨cOid1, cAddrA, 100, ⟨"GTB", "123", "Ada"⟩, cHash, "pending", 5, 5⟩ ∧
    (verifyWithdrawal cOid1 "verified" 9 false cStWd).2 = .err 500 "Server error" ∧
    findWd (verifyWithdrawal cOid1 "verified" 9 false cStWd).1 cOid1 =
      some ⟨cOid1, cAddrA, 100, ⟨"GTB", "123", "Ada"⟩, cHash, "verified", 1, 9⟩ := by
  refine ⟨by decide, by decide, by decide, by decide, by decide⟩

set_option maxRecDepth 8000 in
/-- C9: on the list endpoints the admin-override branch calls
`ethers.verifyMessage` with no prior signature-format gate; with an
`adminAddress` header and the malformed signature `0xzz` the external
recovery throws, the route's catch-all answers the generic 500 server error —
a server error for a format-validation failure, where `adminMiddleware`
(middleware/auth) validates the format first and answers 400/403. -/
theorem list_malformed_signature_server_error :
    isSigFormat cBadSig = false ∧
    isAddress cAddrB = true ∧
    (listWithdrawals none (some cAddrB) (some cBadSig) .thrown cEnv cStEmpty).2 =
      .err 500 "Server error" ∧
    (listTransactions none (some cAddrB) (some cBadSig) .thrown cEnv cStEmpty).2 =
      .err 500 "Server error" := by
  refine ⟨by decide, by decide, by decide, by decide⟩

set_option maxRecDepth 8000 in
/-- C1 counterexample: in a store where the owner of the pending records is
suspended, cancel succeeds and deletes, mark-paid succeeds, and
verify-withdrawal succeeds — none of them rejects with the 403 Authorization
error, and state changes are made, so the claim fails for cancel, mark-paid
and verify. -/
theorem suspension_gate_counterexample :
    findSusp cStSusp cAddrA = some cSuspRec ∧
    cTxPending.userId = lowerStr cAddrA ∧
    cWdPending.userId = lowerStr cAddrA ∧
    (cancelTransaction cOid1 cStSusp).2 = .okSuccessMsg "Transaction cancelled successfully" ∧
    (cancelTransaction cOid1 cStSusp).1 ≠ cStSusp ∧
    (markPaid cOid1 9 cStSusp).2 = .okSuccessId cOid1 ∧
    (verifyWithdrawal cOid1 "verified" 9 true cStSusp).2 = .okSuccess ∧
    (cancelWithdrawal cOid1 cStSusp).2 = .okSuccessMsg "Withdrawal cancelled successfully" := by
  refine ⟨by decide, by decide, by decide, by decide, by decide, by decide, by decide, by decide⟩

/-- C1 (amended): only the create operations and the two relay operations
apply the suspension gate: when the caller's address has a suspension record
(and the preceding format checks pass), each rejects with the 403
Authorization error carrying the stored reason and leaves the state
unchanged; cancel, mark-paid and verify perform no suspension check (see the
counterexample). -/
theorem suspension_gate_amended (s : ServerState) (rT : CreateTxReq) (rW : CreateWdReq)
    (rR : RelayReq) (env : Env) (ext : RelayExt) (idT idW : JStr) (nowT nowW : Nat)
    (tg : Bool) (suT suW suR : SuspRecord)
    (hvT : validCreateTx rT = true)
    (hvW : validCreateWd rW = true)
    (hmiss : relayMissing rR = false)
    (hcontract : lowerStr (rR.contractAddress.getD []) = lowerStr env.withdrawalContract)
    (hfn : rR.functionName.getD "" = "executeMetaWithdrawal")
    (hsT : findSusp s rT.userId = some suT)
    (hsW : findSusp s rW.userId = some suW)
    (hsR : findSusp s (rR.userAddress.getD []) = some suR) :
    createTransaction rT idT nowT s = (s, .err 403 (suspendedMsg suT.reason)) ∧
    createWithdrawal rW idW nowW tg s = (s, .err 403 (suspendedMsg suW.reason)) ∧
    relay rR ext s = (s, .err 403 (suspendedMsg suR.reason)) ∧
    relayWithdrawal rR env ext s = (s, .err 403 (suspendedMsg suR.reason)) := by
  refine ⟨?_, ?_, ?_, ?_⟩
  · unfold createTransaction
    simp [hvT, hsT]
  · unfold createWithdrawal
    simp [hvW, hsW]
  · unfold relay
    simp [hmiss, hsR]
  · unfold relayWithdrawal
    simp [hmiss, hcontract, hfn, hsR]

set_option maxRecDepth 8000 in
/-- C1 witness: the four gated operations each answer 403 with the stored
reason at the concrete suspended store. -/
theorem suspension_gate_amended_witness :
    createTransaction cTxReq cOid2 7 cStSusp = (cStSusp, .err 403 (suspendedMsg cSuspRec.reason)) ∧
    createWithdrawal cWdReq cOid2 7 true cStSusp = (cStSusp, .err 403 (suspendedMsg cSuspRec.reason)) ∧
    relay cRelayReq ⟨.ok cHash, .receipt 1⟩ cStSusp =
      (cStSusp, .err 403 (suspendedMsg cSuspRec.reason)) ∧
    relayWithdrawal cRelayReq cEnv ⟨.ok cHash, .receipt 1⟩ cStSusp =
      (cStSusp, .err 403 (suspendedMsg cSuspRec.reason)) :=
  suspension_gate_amended cStSusp cTxReq cWdReq cRelayReq cEnv ⟨.ok cHash, .receipt 1⟩
    cOid2 cOid2 7 7 true cSuspRec cSuspRec cSuspRec
    (by decide) (by decide) (by decide) (by decide) (by decide)
    (by decide) (by decide) (by decide)

/-- Create-transaction either leaves the collection alone or appends exactly
the one new pending record, and appends only when no pending record for the
same lowercased user already exists. -/
theorem createTx_state (r : CreateTxReq) (nid : JStr) (now : Nat) (s : ServerState) :
    ((createTransaction r nid now s).1).transactions = s.transactions ∨
    (((createTransaction r nid now s).1).transactions =
        s.transactions ++ [⟨nid, lowerStr r.userId, r.name.getD "", lowerStr r.address,
          r.usdtAmount.getD 0, r.nairaAmount.getD 0, "pending", now, now⟩] ∧
      s.transactions.find?
        (fun t => decide (t.userId = lowerStr r.userId ∧ t.status = "pending")) = none) := by
  unfold createTransaction
  by_cases hv : validCreateTx r = true
  · cases hsusp : findSusp s r.userId with
    | some su => left; simp [hv, hsusp]
    | none =>
      cases hfind : s.transactions.find?
          (fun t => decide (t.userId = lowerStr r.userId ∧ t.status = "pending")) with
      | some t2 => left; simp [hv, hsusp, hfind]
      | none =>
        right
        refine ⟨?_, rfl⟩
        simp [hv, hsusp, hfind]
  · left
    simp [hv]

/-- Create-withdrawal either leaves the collection alone or appends exactly
the one new pending record, only when the user has no pending withdrawal. -/
theorem createWd_state (r : CreateWdReq) (nid : JStr) (now : Nat) (tg : Bool) (s : ServerState) :
    ((createWithdrawal r nid now tg s).1).withdrawals = s.withdrawals ∨
    (((createWithdrawal r nid now tg s).1).withdrawals =
        s.withdrawals ++ [⟨nid, lowerStr r.userId, r.usdtAmount.getD 0,
          r.bankDetails.getD ⟨"", "", ""⟩, r.txHash.getD [], "pending", now, now⟩] ∧
      s.withdrawals.find?
        (fun w => decide (w.userId = lowerStr r.userId ∧ w.status = "pending")) = none) := by
  unfold createWithdrawal
  by_cases hv : validCreateWd r = true
  · cases hsusp : findSusp s r.userId with
    | some su => left; simp [hv, hsusp]
    | none =>
      cases hfind : s.withdrawals.find?
          (fun w => decide (w.userId = lowerStr r.userId ∧ w.status = "pending")) with
      | some w2 => left; simp [hv, hsusp, hfind]
      | none =>
        right
        refine ⟨?_, rfl⟩
        cases tg <;> simp [hv, hsusp, hfind]
  · left
    simp [hv]

/-- C2: at most one pending record per (userId, type) under sequential
operation: a create finding a pending record for the same lowercased user
answers the Conflict error carrying the existing record's id with the store
unchanged, for both types; and each create preserves the
at-most-one-pending-per-user invariant. -/
theorem pending_unique_create (s : ServerState)
    (rT : CreateTxReq) (rW : CreateWdReq) (idT idW : JStr) (nowT nowW : Nat) (tg : Bool)
    (t : TxRecord) (w : WdRecord)
    (hvT : validCreateTx rT = true)
    (hsT : findSusp s rT.userId = none)
    (htm : t ∈ s.transactions) (htu : t.userId = lowerStr rT.userId)
    (htp : t.status = "pending")
    (htuniq : ∀ x ∈ s.transactions, x.userId = lowerStr rT.userId → x.status = "pending" → x = t)
    (hvW : validCreateWd rW = true)
    (hsW : findSusp s rW.userId = none)
    (hwm : w ∈ s.withdrawals) (hwu : w.userId = lowerStr rW.userId)
    (hwp : w.status = "pending")
    (hwuniq : ∀ x ∈ s.withdrawals, x.userId = lowerStr rW.userId → x.status = "pending" → x = w) :
    createTransaction rT idT nowT s =
      (s, .errWithId 400
        "You have a pending transaction. Please complete or cancel it before creating a new one."
        t.id) ∧
    createWithdrawal rW idW nowW tg s =
      (s, .errWithId 400 "You have a pending withdrawal. Please complete or cancel it." w.id) ∧
    (∀ (s2 : ServerState) (r2 : CreateTxReq) (id2 : JStr) (now2 : Nat),
      AtMostOnePendingTx s2.transactions →
      AtMostOnePendingTx ((createTransaction r2 id2 now2 s2).1).transactions) ∧
    (∀ (s2 : ServerState) (r2 : CreateWdReq) (id2 : JStr) (now2 : Nat) (tg2 : Bool),
      AtMostOnePendingWd s2.withdrawals →
      AtMostOnePendingWd ((createWithdrawal r2 id2 now2 tg2 s2).1).withdrawals) := by
  have hfindT : s.transactions.find?
      (fun x => decide (x.userId = lowerStr rT.userId ∧ x.status = "pending")) = some t := by
    apply findUniqueEqSome _ _ _ htm
    · simp [htu, htp]
    · intro x hx hpx
      rw [decide_eq_true_eq] at hpx
      exact htuniq x hx hpx.1 hpx.2
  have hfindW : s.withdrawals.find?
      (fun x => decide (x.userId = lowerStr rW.userId ∧ x.status = "pending")) = some w := by
    apply findUniqueEqSome _ _ _ hwm
    · simp [hwu, hwp]
    · intro x hx hpx
      rw [decide_eq_true_eq] at hpx
      exact hwuniq x hx hpx.1 hpx.2
  simp only [Bool.decide_and] at hfindT hfindW
  refine ⟨?_, ?_, ?_, ?_⟩
  · unfold createTransaction
    simp [hvT, hsT, hfindT]
  · unfold createWithdrawal
    simp [hvW, hsW, hfindW]
  · intro s2 r2 id2 now2 hinv
    rcases createTx_state r2 id2 now2 s2 with heq | ⟨heq, hnone⟩
    · rw [heq]; exact hinv
    · rw [heq]
      intro x hx y hy hpx hpy hxy
      rcases List.mem_append.mp hx with hx1 | hx1 <;>
        rcases List.mem_append.mp hy with hy1 | hy1
      · exact hinv x hx1 y hy1 hpx hpy hxy
      · exfalso
        have hy2 := List.mem_singleton.mp hy1
        have hxp : x.userId = lowerStr r2.userId := by rw [hxy, hy2]
        have := List.find?_eq_none.mp hnone x hx1
        apply this
        simp [hxp, hpx]
      · exfalso
        have hx2 := List.mem_singleton.mp hx1
        have hyp2 : y.userId = lowerStr r2.userId := by rw [← hxy, hx2]
        have := List.find?_eq_none.mp hnone y hy1
        apply this
        simp [hyp2, hpy]
      · rw [List.mem_singleton.mp hx1, List.mem_singleton.mp hy1]
  · intro s2 r2 id2 now2 tg2 hinv
    rcases createWd_state r2 id2 now2 tg2 s2 with heq | ⟨heq, hnone⟩
    · rw [heq]; exact hinv
    · rw [heq]
      intro x hx y hy hpx hpy hxy
      rcases List.mem_append.mp hx with hx1 | hx1 <;>
        rcases List.mem_append.mp hy with hy1 | hy1
      · exact hinv x hx1 y hy1 hpx hpy hxy
      · exfalso
        have hy2 := List.mem_singleton.mp hy1
        have hxp : x.userId = lowerStr r2.userId := by rw [hxy, hy2]
        have := List.find?_eq_none.mp hnone x hx1
        apply this
        simp [hxp, hpx]
      · exfalso
        have hx2 := List.mem_singleton.mp hx1
        have hyp2 : y.userId = lowerStr r2.userId := by rw [← hxy, hx2]
        have := List.find?_eq_none.mp hnone y hy1
        apply this
        simp [hyp2, hpy]
      · rw [List.mem_singleton.mp hx1, List.mem_singleton.mp hy1]

set_option maxRecDepth 8000 in
/-- C2 witness: at the concrete store holding one pending transaction and one
pending withdrawal for `cAddrA`, both creates answer Conflict with the
existing ids and change nothing. -/
theorem pending_unique_create_witness :
    createTransaction cTxReq cOid2 7 cStPend =
      (cStPend, .errWithId 400
        "You have a pending transaction. Please complete or cancel it before creating a new one."
        cTxPending.id) ∧
    createWithdrawal cWdReq cOid2 7 true cStPend =
      (cStPend, .errWithId 400 "You have a pending withdrawal. Please complete or cancel it."
        cWdPending.id) :=
  ⟨(pending_unique_create cStPend cTxReq cWdReq cOid2 cOid2 7 7 true cTxPending cWdPending
      (by decide) (by decide) (by decide) (by decide) (by decide) (by decide)
      (by decide) (by decide) (by decide) (by decide) (by decide) (by decide)).1,
   (pending_unique_create cStPend cTxReq cWdReq cOid2 cOid2 7 7 true cTxPending cWdPending
      (by decide) (by decide) (by decide) (by decide) (by decide) (by decide)
      (by decide) (by decide) (by decide) (by decide) (by decide) (by decide)).2.1⟩

/-- Verify-transaction answers the status conflict whenever the record is not
awaiting verification. -/
theorem verifyTx_conflict (s : ServerState) (tid : JStr) (out : String) (now : Nat)
    (t : TxRecord) (hid : isValidObjectId tid = true)
    (hout : out = "verified" ∨ out = "failed") (hft : findTx s tid = some t)
    (hne : t.status ≠ "awaiting verification") :
    verifyTransaction tid out now s =
      (s, .err 400 ("Transaction is in " ++ t.status ++ " status")) := by
  rcases hout with rfl | rfl <;> simp [verifyTransaction, hid, hft, hne]

/-- Verify-transaction writes the outcome when the record awaits verification. -/
theorem verifyTx_success (s : ServerState) (tid : JStr) (out : String) (now : Nat)
    (t : TxRecord) (hid : isValidObjectId tid = true)
    (hout : out = "verified" ∨ out = "failed") (hft : findTx s tid = some t)
    (heq : t.status = "awaiting verification") :
    verifyTransaction tid out now s =
      ({ s with transactions := updTxStatus s.transactions tid out now }, .okSuccess) := by
  rcases hout with rfl | rfl <;> simp [verifyTransaction, hid, hft, heq]

/-- Verify-withdrawal answers the status conflict whenever the record is
neither pending nor awaiting verification. -/
theorem verifyWd_conflict (s : ServerState) (tid : JStr) (out : String) (now : Nat)
    (tg : Bool) (w : WdRecord) (hid : isValidObjectId tid = true)
    (hout : out = "verified" ∨ out = "failed") (hfw : findWd s tid = some w)
    (hne1 : w.status ≠ "pending") (hne2 : w.status ≠ "awaiting verification") :
    verifyWithdrawal tid out now tg s =
      (s, .err 400 ("Withdrawal is in " ++ w.status ++ " status")) := by
  rcases hout with rfl | rfl <;> simp [verifyWithdrawal, hid, hfw, hne1, hne2]

/-- Verify-withdrawal writes the outcome when the record is pending or
awaiting verification. -/
theorem verifyWd_success (s : ServerState) (tid : JStr) (out : String) (now : Nat)
    (tg : Bool) (w : WdRecord) (hid : isValidObjectId tid = true)
    (hout : out = "verified" ∨ out = "failed") (hfw : findWd s tid = some w)
    (heq : w.status = "pending" ∨ w.status = "awaiting verification") :
    (verifyWithdrawal tid out now tg s).1 =
      { s with withdrawals := updWdStatus s.withdrawals tid out now } := by
  have hcond : ¬(w.status ≠ "pending" ∧ w.status ≠ "awaiting verification") := by
    rcases heq with h | h <;> simp [h]
  rcases hout with rfl | rfl <;> cases tg <;>
    simp [verifyWithdrawal, hid, hfw, hcond]

/-- C3: with a well-formed id and outcome in `{verified, failed}` resolving to
a record, verify answers the Conflict error reporting the current status
unless that status is exactly awaiting verification (Transaction) or pending
or awaiting verification (Withdrawal), leaving the store unchanged; when the
precondition holds it sets the status to the outcome and `updatedAt` to the
clock; and a second verify on the same id then always answers Conflict. -/
theorem verify_pre_state (s : ServerState) (tidT tidW : JStr) (outT outW : String)
    (nowT nowW : Nat) (tg : Bool) (t : TxRecord) (w : WdRecord)
    (hidT : isValidObjectId tidT = true) (hidW : isValidObjectId tidW = true)
    (houtT : outT = "verified" ∨ outT = "failed")
    (houtW : outW = "verified" ∨ outW = "failed")
    (hft : findTx s tidT = some t) (hfw : findWd s tidW = some w) :
    (t.status ≠ "awaiting verification" →
      verifyTransaction tidT outT nowT s =
        (s, .err 400 ("Transaction is in " ++ t.status ++ " status"))) ∧
    (t.status = "awaiting verification" →
      verifyTransaction tidT outT nowT s =
        ({ s with transactions := updTxStatus s.transactions tidT outT nowT }, .okSuccess) ∧
      findTx (verifyTransaction tidT outT nowT s).1 tidT =
        some { t with status := outT, updatedAt := nowT } ∧
      (∀ out2 now2, out2 = "verified" ∨ out2 = "failed" →
        verifyTransaction tidT out2 now2 (verifyTransaction tidT outT nowT s).1 =
          ((verifyTransaction tidT outT nowT s).1,
            .err 400 ("Transaction is in " ++ outT ++ " status")))) ∧
    (w.status ≠ "pending" → w.status ≠ "awaiting verification" →
      verifyWithdrawal tidW outW nowW tg s =
        (s, .err 400 ("Withdrawal is in " ++ w.status ++ " status"))) ∧
    (w.status = "pending" ∨ w.status = "awaiting verification" →
      (verifyWithdrawal tidW outW nowW tg s).1 =
        { s with withdrawals := updWdStatus s.withdrawals tidW outW nowW } ∧
      findWd (verifyWithdrawal tidW outW nowW tg s).1 tidW =
        some { w with status := outW, updatedAt := nowW } ∧
      (∀ out2 now2 tg2, out2 = "verified" ∨ out2 = "failed" →
        verifyWithdrawal tidW out2 now2 tg2 (verifyWithdrawal tidW outW nowW tg s).1 =
          ((verifyWithdrawal tidW outW nowW tg s).1,
            .err 400 ("Withdrawal is in " ++ outW ++ " status")))) := by
  refine ⟨?_, ?_, ?_, ?_⟩
  · intro hne
    exact verifyTx_conflict s tidT outT nowT t hidT houtT hft hne
  · intro heq
    have key := verifyTx_success s tidT outT nowT t hidT houtT hft heq
    have hfind2 : findTx (verifyTransaction tidT outT nowT s).1 tidT =
        some { t with status := outT, updatedAt := nowT } := by
      rw [key]
      unfold findTx at hft ⊢
      show (updTxStatus s.transactions tidT outT nowT).find? _ = _
      rw [find_updTxStatus, hft]
      rfl
    refine ⟨key, hfind2, ?_⟩
    intro out2 now2 hout2
    have hne2 : ({ t with status := outT, updatedAt := nowT } : TxRecord).status ≠
        "awaiting verification" := by
      rcases houtT with rfl | rfl <;> simp
    exact verifyTx_conflict _ tidT out2 now2 _ hidT hout2 hfind2 hne2
  · intro hne1 hne2
    exact verifyWd_conflict s tidW outW nowW tg w hidW houtW hfw hne1 hne2
  · intro heq
    have key := verifyWd_success s tidW outW nowW tg w hidW houtW hfw heq
    have hfind2 : findWd (verifyWithdrawal tidW outW nowW tg s).1 tidW =
        some { w with status := outW, updatedAt := nowW } := by
      rw [key]
      unfold findWd at hfw ⊢
      show (updWdStatus s.withdrawals tidW outW nowW).find? _ = _
      rw [find_updWdStatus, hfw]
      rfl
    refine ⟨key, hfind2, ?_⟩
    intro out2 now2 tg2 hout2
    have hne1 : ({ w with status := outW, updatedAt := nowW } : WdRecord).status ≠
        "pending" := by
      rcases houtW with rfl | rfl <;> simp
    have hne2 : ({ w with status := outW, updatedAt := nowW } : WdRecord).status ≠
        "awaiting verification" := by
      rcases houtW with rfl | rfl <;> simp
    exact verifyWd_conflict _ tidW out2 now2 tg2 _ hidW hout2 hfind2 hne1 hne2

set_option maxRecDepth 8000 in
/-- C3 witness: at the concrete store, verifying the awaiting transaction and
the pending withdrawal succeeds and a second verify answers Conflict. -/
theorem verify_pre_state_witness :
    verifyTransaction cOid1 "verified" 9 cStVerify =
      ({ cStVerify with transactions := updTxStatus cStVerify.transactions cOid1 "verified" 9 },
        .okSuccess) ∧
    (verifyWithdrawal cOid1 "verified" 9 true cStVerify).1 =
      { cStVerify with withdrawals := updWdStatus cStVerify.withdrawals cOid1 "verified" 9 } ∧
    verifyTransaction cOid1 "failed" 11 (verifyTransaction cOid1 "verified" 9 cStVerify).1 =
      ((verifyTransaction cOid1 "verified" 9 cStVerify).1,
        .err 400 ("Transaction is in " ++ "verified" ++ " status")) :=
  ⟨((verify_pre_state cStVerify cOid1 cOid1 "verified" "verified" 9 9 true cTxAwait cWdPending
      (by decide) (by decide) (Or.inl rfl) (Or.inl rfl) (by decide) (by decide)).2.1
      (by decide)).1,
   ((verify_pre_state cStVerify cOid1 cOid1 "verified" "verified" 9 9 true cTxAwait cWdPending
      (by decide) (by decide) (Or.inl rfl) (Or.inl rfl) (by decide) (by decide)).2.2.2
      (Or.inl rfl)).1,
   ((verify_pre_state cStVerify cOid1 cOid1 "verified" "verified" 9 9 true cTxAwait cWdPending
      (by decide) (by decide) (Or.inl rfl) (Or.inl rfl) (by decide) (by decide)).2.1
      (by decide)).2.2 "failed" 11 (Or.inr rfl)⟩

/-- C7: with a well-formed id, cancel answers NotFound when the id resolves
to no record, answers the Conflict error reporting the current status unless
that status is pending (store unchanged), and otherwise deletes the record,
after which check-status on the same id answers NotFound. -/
theorem cancel_semantics (s : ServerState) (tid : JStr)
    (hid : isValidObjectId tid = true)
    (hcount : s.transactions.countP (fun r => decide (r.id = tid)) ≤ 1) :
    (findTx s tid = none → cancelTransaction tid s = (s, .err 404 "Transaction not found")) ∧
    (∀ t, findTx s tid = some t → t.status ≠ "pending" →
      cancelTransaction tid s =
        (s, .err 400 ("Transaction is in " ++ t.status ++ " status"))) ∧
    (∀ t, findTx s tid = some t → t.status = "pending" →
      cancelTransaction tid s =
        ({ s with transactions := s.transactions.eraseP (fun r => decide (r.id = tid)) },
          .okSuccessMsg "Transaction cancelled successfully") ∧
      checkStatus tid (cancelTransaction tid s).1 =
        ((cancelTransaction tid s).1, .err 404 "Transaction not found")) := by
  refine ⟨?_, ?_, ?_⟩
  · intro hnone
    unfold cancelTransaction
    simp [hid, hnone]
  · intro t hft hne
    unfold cancelTransaction
    simp [hid, hft, hne]
  · intro t hft hp
    have key : cancelTransaction tid s =
        ({ s with transactions := s.transactions.eraseP (fun r => decide (r.id = tid)) },
          .okSuccessMsg "Transaction cancelled successfully") := by
      unfold cancelTransaction
      simp [hid, hft, hp]
    refine ⟨key, ?_⟩
    rw [key]
    have h2 : findTx
        ({ s with transactions := s.transactions.eraseP (fun r => decide (r.id = tid)) }) tid =
        none := by
      unfold findTx
      exact findErasePNone _ _ hcount
    unfold checkStatus
    simp [hid, h2]

/-- C8: addresses are canonicalized to lowercase: after suspending address
`a`, the suspension lookup on any case-variant `b` of `a` returns the record
stored under the folded address; and every address a create or suspend
stores — transaction `userId` and destination `address`, withdrawal
`userId`, suspension `address` — is lowercase. -/
theorem lowercase_canonical (s : ServerState) (a b : JStr) (reason : Option String)
    (adminAddr : JStr) (now : Nat)
    (hab : lowerStr a = lowerStr b)
    (hva : isAddress a = true)
    (hnew : s.suspensions.any (fun r => decide (r.address = lowerStr a)) = false) :
    findSusp (suspend a reason adminAddr now s).1 b =
      some ⟨lowerStr a, jsOrReason reason, now, adminAddr⟩ ∧
    IsLower (lowerStr a) ∧
    (∀ r ∈ (suspend a reason adminAddr now s).1.suspensions,
      r ∈ s.suspensions ∨ IsLower r.address) ∧
    (∀ (s2 : ServerState) (r2 : CreateTxReq) (id2 : JStr) (now2 : Nat),
      ∀ t ∈ ((createTransaction r2 id2 now2 s2).1).transactions,
        t ∈ s2.transactions ∨ (IsLower t.userId ∧ IsLower t.address)) ∧
    (∀ (s2 : ServerState) (r2 : CreateWdReq) (id2 : JStr) (now2 : Nat) (tg2 : Bool),
      ∀ w ∈ ((createWithdrawal r2 id2 now2 tg2 s2).1).withdrawals,
        w ∈ s2.withdrawals ∨ IsLower w.userId) := by
  have hkey : (suspend a reason adminAddr now s).1 =
      { s with suspensions :=
          s.suspensions ++ [⟨lowerStr a, jsOrReason reason, now, adminAddr⟩] } := by
    unfold suspend
    simp [hva, hnew]
  refine ⟨?_, isLower_lowerStr a, ?_, ?_, ?_⟩
  · rw [hkey]
    unfold findSusp
    show (s.suspensions ++ [_]).find? _ = _
    apply findAppendSingleton
    · intro y hy
      have h1 := (List.any_eq_false.mp hnew) y hy
      simp only [decide_eq_true_eq] at h1
      simp only [decide_eq_false_iff_not]
      rw [← hab]
      exact h1
    · simp [hab]
  · rw [hkey]
    intro r hr
    rcases List.mem_append.mp hr with h | h
    · exact Or.inl h
    · right
      rw [List.mem_singleton.mp h]
      exact isLower_lowerStr a
  · intro s2 r2 id2 now2 t ht
    rcases createTx_state r2 id2 now2 s2 with heq | ⟨heq, -⟩
    · rw [heq] at ht
      exact Or.inl ht
    · rw [heq] at ht
      rcases List.mem_append.mp ht with h | h
      · exact Or.inl h
      · right
        rw [List.mem_singleton.mp h]
        exact ⟨isLower_lowerStr _, isLower_lowerStr _⟩
  · intro s2 r2 id2 now2 tg2 w hw
    rcases createWd_state r2 id2 now2 tg2 s2 with heq | ⟨heq, -⟩
    · rw [heq] at hw
      exact Or.inl hw
    · rw [heq] at hw
      rcases List.mem_append.mp hw with h | h
      · exact Or.inl h
      · right
        rw [List.mem_singleton.mp h]
        exact isLower_lowerStr _

set_option maxRecDepth 8000 in
/-- C7 witness: cancelling the concrete pending transaction deletes it and
check-status then answers NotFound. -/
theorem cancel_semantics_witness :
    cancelTransaction cOid1 cStPend =
      ({ cStPend with
          transactions := cStPend.transactions.eraseP (fun r => decide (r.id = cOid1)) },
        .okSuccessMsg "Transaction cancelled successfully") ∧
    checkStatus cOid1 (cancelTransaction cOid1 cStPend).1 =
      ((cancelTransaction cOid1 cStPend).1, .err 404 "Transaction not found") :=
  (cancel_semantics cStPend cOid1 (by decide) (by decide)).2.2 cTxPending
    (by decide) (by decide)

set_option maxRecDepth 8000 in
/-- C8 witness: suspending the uppercase variant of the concrete address and
looking up its lowercase variant returns the stored record, whose address is
lowercase. -/
theorem lowercase_canonical_witness :
    findSusp (suspend cAddrAU (some "fraud") cAddrB 3 cStEmpty).1 cAddrA =
      some ⟨lowerStr cAddrAU, jsOrReason (some "fraud"), 3, cAddrB⟩ ∧
    IsLower (lowerStr cAddrAU) :=
  ⟨(lowercase_canonical cStEmpty cAddrAU cAddrA (some "fraud") cAddrB 3
      (by decide) (by decide) (by decide)).1,
   (lowercase_canonical cStEmpty cAddrAU cAddrA (some "fraud") cAddrB 3
      (by decide) (by decide) (by decide)).2.1⟩
